import Mathlib

/-!
Shallow embedding of the ShortsBot backend (`src/server.js`): the OAuth
token manager (`getValidToken`), the video scheduler (`scheduleVideoPost`),
the script generator (`generateScript`, `parseGeneratedScript`,
`localGenerate`) and the bounded video-draft store mutated by the HTTP
routes.  Persistent state (the `data.json` document) is modelled as an
explicit `DB` value threaded through each operation; external HTTP calls
(the refresh endpoint, the generation API) are modelled as explicit result
parameters, and wall-clock reads (`Date.now()`, `new Date().toISOString()`)
as explicit time parameters.
-/

set_option autoImplicit false
set_option linter.unusedVariables false

namespace ShortsBot

/-! ### JavaScript string primitives, modelled on `List Char` -/

/-- JS whitespace test, restricted to the characters the repository's data
actually contains (space, tab, CR, LF). -/
def isWs (c : Char) : Bool := c.isWhitespace

/-- JS `String.prototype.trim`: drop whitespace at both ends. -/
def trimList (l : List Char) : List Char :=
  ((l.dropWhile isWs).reverse.dropWhile isWs).reverse

/-- JS `s.trim()` lifted to `String`. -/
def jsTrim (s : String) : String := String.mk (trimList s.data)

/-- JS `String.prototype.split` with a one-character separator:
`"".split(c) = [""]`, separators at the ends produce empty tokens. -/
def splitOnCharList (sep : Char) : List Char → List (List Char)
  | [] => [[]]
  | c :: cs =>
    let rest := splitOnCharList sep cs
    if c = sep then [] :: rest
    else
      match rest with
      | h :: t => (c :: h) :: t
      | [] => [[c]]

/-- JS `hashtags.split(char)` lifted to `String`. -/
def jsSplitChar (sep : Char) (s : String) : List String :=
  (splitOnCharList sep s.data).map String.mk

/-! ### Data model: the persisted `data.json` document -/

/-- The token record `db.tokens` (`server.js` lines 390-394): access token,
refresh token, and the expiry instant in milliseconds. -/
structure Tokens where
  access_token : String
  refresh_token : String
  expiry : Int
deriving Repr, DecidableEq

/-- Cached channel snapshot `db.channel` (`getChannelInfo`). -/
structure ChannelInfo where
  id : String
  title : String
  handle : String
  thumbnail : Option String
  subscribers : String
  views : String
  videoCount : String
deriving Repr, DecidableEq

/-- The platform-ready metadata attached on scheduling
(`video.youtubeMetadata`, `server.js` lines 267-273). -/
structure YoutubeMetadata where
  title : String
  description : String
  tags : List String
  categoryId : String
  privacyStatus : String
deriving Repr, DecidableEq

/-- The structured script artifact produced by the generator
(`generateScript` return shape: title, hook, script, hashtags). -/
structure Script where
  title : String
  hook : String
  script : String
  hashtags : String
deriving Repr, DecidableEq

/-- A video draft record as created by the `/api/generate` route
(`server.js` lines 425-438) and mutated by `scheduleVideoPost`. -/
structure Video where
  id : String
  topic : String
  tone : String
  length : Int
  title : String
  hook : String
  script : String
  hashtags : String
  status : String
  createdAt : String
  scheduledFor : Option String
  emoji : String
  scheduledAt : Option String
  error : Option String
  youtubeMetadata : Option YoutubeMetadata
deriving Repr, DecidableEq

/-- The persisted document `data.json` (`loadDB` default:
`\x7b videos: [], tokens: null, channel: null \x7d`). -/
structure DB where
  videos : List Video
  tokens : Option Tokens
  channel : Option ChannelInfo
deriving Repr, DecidableEq

/-- The fresh document returned by `loadDB` when no file exists. -/
def initialDB : DB := { videos := [], tokens := none, channel := none }

/-! ### Token manager (`getValidToken`, `server.js` lines 97-114) -/

/-- Outcome of the external refresh endpoint call (`refreshToken`): the
provider either answers with `\x7b access_token, expires_in \x7d` or with an
error payload `\x7b error \x7d`. -/
inductive RefreshResult where
  | ok (access_token : String) (expires_in : Int)
  | err (e : String)
deriving Repr, DecidableEq

/-- `getValidToken` (`server.js` lines 97-114).  `now` is `Date.now()`;
`refresh` is the answer the external refresh endpoint would give if called.
Returns the JS function's result (token or thrown message) together with
the persisted document after the call: the error paths perform no
`saveDB`, so they return `db` unchanged. -/
def getValidToken (now : Int) (refresh : RefreshResult) (db : DB) :
    Except String String × DB :=
  match db.tokens with
  | none => (.error "Not authenticated", db)
  | some t =>
    if now < t.expiry - 60000 then (.ok t.access_token, db)
    else
      match refresh with
      | .err e => (.error ("Token refresh failed: " ++ e), db)
      | .ok atok expIn =>
        let t' : Tokens := { t with access_token := atok, expiry := now + expIn * 1000 }
        (.ok atok, { db with tokens := some t' })

/-! ### Scheduler (`scheduleVideoPost`, `server.js` lines 253-282) -/

/-- The `youtubeMetadata.tags` computation (`server.js` line 270):
`video.hashtags.split(sharp).filter(t => t.trim()).map(t => t.trim())`. -/
def hashtagsToTags (hashtags : String) : List String :=
  ((jsSplitChar '#' hashtags).filter (fun t => jsTrim t != "")).map jsTrim

/-- The metadata object attached on a successful schedule
(`server.js` lines 267-273). -/
def mkYoutubeMetadata (v : Video) : YoutubeMetadata :=
  { title := v.title
    description := v.script ++ "\n\n" ++ v.hashtags ++ "\n\n#Shorts"
    tags := hashtagsToTags v.hashtags
    categoryId := "22"
    privacyStatus := "public" }

/-- In-place mutation of the object `db.videos.find(...)` returned: the
first entry satisfying `p` is replaced, the rest of the list is untouched. -/
def replaceFirst (p : Video → Bool) (v' : Video) : List Video → List Video
  | [] => []
  | w :: ws => if p w then v' :: ws else w :: replaceFirst p v' ws

/-- `scheduleVideoPost` (`server.js` lines 253-282).  `nowMs`/`refresh`
parameterise the inner `getValidToken` call, `nowIso` is
`new Date().toISOString()`.  Returns the JS result (the `video` on success,
the thrown message on failure) and the persisted document: the catch block
stamps `status = error` and the message onto the draft and saves before
re-throwing. -/
def scheduleVideoPost (nowMs : Int) (refresh : RefreshResult) (nowIso : String)
    (videoId : String) (db : DB) : Except String Video × DB :=
  match db.videos.find? (fun v => v.id == videoId) with
  | none => (.error "Video not found", db)
  | some v =>
    match getValidToken nowMs refresh db with
    | (.ok _tok, db1) =>
      let v' : Video := { v with status := "scheduled", scheduledAt := some nowIso,
                                 youtubeMetadata := some (mkYoutubeMetadata v) }
      (.ok v', { db1 with videos := replaceFirst (fun w => w.id == videoId) v' db1.videos })
    | (.error e, db1) =>
      let v' : Video := { v with status := "error", error := some e }
      (.error e, { db1 with videos := replaceFirst (fun w => w.id == videoId) v' db1.videos })

/-! ### Script generator: response parsing
(`parseGeneratedScript`, `server.js` lines 193-205) -/

/-- Case-insensitive prefix test (the JS regexes carry the `i` flag). -/
def isPrefixOfCI (m l : List Char) : Bool :=
  (m.map Char.toLower).isPrefixOf (l.map Char.toLower)

/-- The suffix after the first case-insensitive occurrence of `marker`. -/
def afterMarker (marker : List Char) : List Char → Option (List Char)
  | [] => none
  | c :: cs =>
    if isPrefixOfCI marker (c :: cs) then some ((c :: cs).drop marker.length)
    else afterMarker marker cs

/-- Characters before the first case-insensitive occurrence of `stop`. -/
def takeUntilMarker (stop : List Char) : List Char → List Char
  | [] => []
  | c :: cs =>
    if isPrefixOfCI stop (c :: cs) then []
    else c :: takeUntilMarker stop cs

/-- Capture of a regex `MARKER:\s*(.+)` with the `i` flag: after the first
occurrence of the marker, `\s*` skips whitespace (newlines included) and
`(.+)` greedily captures up to the end of the line.  When nothing but
whitespace follows the marker the JS match either fails or captures pure
whitespace that the caller's `.trim()` empties, so both cases land on the
caller's default; the model returns `none` for them. -/
def extractLineField (marker : List Char) (text : List Char) : Option (List Char) :=
  (afterMarker marker text).bind fun rest =>
    match rest.dropWhile isWs with
    | [] => none
    | r => some (r.takeWhile (fun ch => ch != '\n'))

/-- Capture of `SCRIPT:\s*([\s\S]+?)(?=HASHTAGS:|$)` with the `i` flag:
after the marker and the whitespace skip, the lazy group captures at least
one character and stops before the next occurrence of the stop marker, or
runs to the end of the text. -/
def extractBlockField (marker stop : List Char) (text : List Char) :
    Option (List Char) :=
  (afterMarker marker text).bind fun rest =>
    match rest.dropWhile isWs with
    | [] => none
    | c :: cs => some (c :: takeUntilMarker stop cs)

/-- The JS `match?.[1]?.trim() || default` idiom: a missing capture, and a
capture that trims to the empty string, both yield the default. -/
def orElseField (extracted : Option (List Char)) (dflt : String) : String :=
  match extracted with
  | none => dflt
  | some l => if String.mk (trimList l) = "" then dflt else String.mk (trimList l)

/-- `parseGeneratedScript` (`server.js` lines 193-205): the four fields are
extracted independently, each with its own default. -/
def parseGeneratedScript (text topic : String) : Script :=
  { title := orElseField (extractLineField "TITLE:".data text.data) topic
    hook := orElseField (extractLineField "HOOK:".data text.data) ""
    script := orElseField (extractBlockField "SCRIPT:".data "HASHTAGS:".data text.data) text
    hashtags := orElseField (extractLineField "HASHTAGS:".data text.data)
      "#shorts #viral #trending" }

/-! ### Script generator: local fallback
(`localGenerate`, `server.js` lines 207-245) -/

/-- The five candidate hooks (`server.js` lines 208-214). -/
def localHooks (topic : String) : List String :=
  [ "Nobody talks about this but it's the #1 thing you need to know about " ++ topic ++ ".",
    "Stop scrolling — this " ++ topic ++ " tip will change how you think.",
    "I tried " ++ topic ++ " for 30 days. Here's what actually happened.",
    "The truth about " ++ topic ++ " that nobody tells you.",
    "If you care about " ++ topic ++ ", watch this right now." ]

/-- The three-point body template (`server.js` lines 217-229). -/
def localScriptBody (hook topic : String) : String :=
  hook ++ "\n\nHere's what I discovered:\n\nFirst — most people approach " ++ topic ++
  " completely wrong. They focus on the wrong things and wonder why they're not seeing results." ++
  "\n\nSecond — the secret is consistency. Not perfection. Not talent. Just showing up every single day and doing the work." ++
  "\n\nThird — track your progress. What gets measured gets improved. Start small, stay consistent, and the results will come." ++
  "\n\nThe bottom line? " ++ topic ++ " is simpler than you think. Most people overcomplicate it." ++
  "\n\nSave this video and share it with someone who needs to hear this. And follow for more tips like this every day."

/-- `topic.split(space).slice(0, 4).join(space)` (`server.js` line 231). -/
def titleWordsOf (topic : String) : String :=
  String.intercalate " " ((jsSplitChar ' ' topic).take 4)

/-- The four candidate titles (`server.js` lines 232-237). -/
def localTitles (topic : String) : List String :=
  [ "The Truth About " ++ titleWordsOf topic,
    titleWordsOf topic ++ ": What Nobody Tells You",
    "I Tried " ++ titleWordsOf topic ++ " For 30 Days",
    "Stop Making This " ++ titleWordsOf topic ++ " Mistake" ]

/-- `topic.replace(whitespace-runs, empty).toLowerCase()`
(`server.js` line 243). -/
def topicTag (topic : String) : String :=
  String.mk ((topic.data.filter (fun c => !(isWs c))).map Char.toLower)

/-- `localGenerate` (`server.js` lines 207-245).  The two
`Math.floor(Math.random() * n)` selections are injected as `hookIdx` and
`titleIdx`; `tone` and `length` are accepted but unused, as in the source. -/
def localGenerate (topic tone : String) (length : Int)
    (hookIdx : Fin 5) (titleIdx : Fin 4) : Script :=
  let hook := (localHooks topic).get ⟨hookIdx.val, hookIdx.isLt⟩
  { title := (localTitles topic).get ⟨titleIdx.val, titleIdx.isLt⟩
    hook := hook
    script := localScriptBody hook topic
    hashtags := "#" ++ topicTag topic ++ " #shorts #viral #trending #fyp" }

/-! ### Script generator: top level
(`generateScript`, `server.js` lines 138-191) -/

/-- Outcome of the external generation call: the request promise either
rejects (network/transport error) or resolves with
`result.content?.[0]?.text` — `none` when the response body failed to
parse as JSON (the handler resolves with an empty object) or the expected
content field is absent. -/
inductive ExtCall where
  | reject (msg : String)
  | resolved (contentText : Option String)
deriving Repr, DecidableEq

/-- `generateScript` (`server.js` lines 138-191): with no configured API
key, or on any failure of the external call, the local generator's result
is returned; only a resolved response carrying a content text reaches
`parseGeneratedScript`.  The function is total — no path throws. -/
def generateScript (claudeApiKey : Option String) (ext : ExtCall)
    (topic tone : String) (length : Int) (hookIdx : Fin 5) (titleIdx : Fin 4) : Script :=
  match claudeApiKey with
  | some _ =>
    match ext with
    | .resolved (some text) => parseGeneratedScript text topic
    | .resolved none => localGenerate topic tone length hookIdx titleIdx
    | .reject _ => localGenerate topic tone length hookIdx titleIdx
  | none => localGenerate topic tone length hookIdx titleIdx

/-! ### Video draft store: the HTTP routes that mutate `db.videos` -/

/-- The emoji pool of the `/api/generate` route (`server.js` line 437). -/
def emojiPool : List String :=
  ["🔥", "💡", "🚀", "🎯", "✨", "💫", "⚡", "🎬", "📱", "🧠"]

/-- The draft object built by the `/api/generate` route (`server.js`
lines 425-438): `nowMs` is `Date.now()` (the id source), `nowIso` is
`new Date().toISOString()`, `emojiIdx` the random emoji selection. -/
def mkVideo (nowMs : Nat) (nowIso : String) (topic tone : String) (length : Int)
    (generated : Script) (scheduleFor : Option String) (emojiIdx : Fin 10) : Video :=
  { id := toString nowMs
    topic := topic
    tone := tone
    length := length
    title := generated.title
    hook := generated.hook
    script := generated.script
    hashtags := generated.hashtags
    status := "draft"
    createdAt := nowIso
    scheduledFor := scheduleFor
    emoji := emojiPool.get ⟨emojiIdx.val, emojiIdx.isLt⟩
    scheduledAt := none
    error := none
    youtubeMetadata := none }

/-- The store insertion of the `/api/generate` route (`server.js`
lines 440-441): `unshift` then truncate to the most recent 50. -/
def insertVideo (v : Video) (videos : List Video) : List Video :=
  let vs := v :: videos
  if vs.length > 50 then vs.take 50 else vs

/-- The `DELETE /api/videos/:id` route (`server.js` line 457). -/
def deleteVideo (videoId : String) (videos : List Video) : List Video :=
  videos.filter (fun v => v.id != videoId)

/-- One inbound request that mutates the persisted document. -/
inductive Op where
  | generate (nowMs : Nat) (nowIso : String) (topic tone : String) (length : Int)
      (generated : Script) (scheduleFor : Option String) (emojiIdx : Fin 10)
  | delete (videoId : String)
  | schedule (nowMs : Int) (refresh : RefreshResult) (nowIso : String) (videoId : String)
  | disconnect
  | authCallback (tokens : Tokens) (channel : Option ChannelInfo)

/-- The effect of one request on the persisted document, per route:
`/api/generate`, `DELETE /api/videos/:id`, `/api/videos/:id/schedule`,
`/auth/disconnect`, `/auth/callback`. -/
def applyOp (db : DB) : Op → DB
  | .generate nowMs nowIso topic tone length generated scheduleFor emojiIdx =>
    let v := mkVideo nowMs nowIso topic tone length generated scheduleFor emojiIdx
    { db with videos := insertVideo v db.videos }
  | .delete videoId => { db with videos := deleteVideo videoId db.videos }
  | .schedule nowMs refresh nowIso videoId =>
    (scheduleVideoPost nowMs refresh nowIso videoId db).2
  | .disconnect => { db with tokens := none, channel := none }
  | .authCallback tokens channel => { db with tokens := some tokens, channel := channel }

/-- A whole request history, applied to the fresh document. -/
def applyOps (ops : List Op) : DB := ops.foldl applyOp initialDB

/-! ## Theorems -/

/-- Every error `getValidToken` can throw carries a non-empty message. -/
theorem getValidToken_error_nonempty (now : Int) (refresh : RefreshResult) (db : DB)
    (e : String) (h : (getValidToken now refresh db).1 = .error e) : e ≠ "" := by
  intro hc
  subst hc
  cases hdb : db.tokens with
  | none =>
    have heq : getValidToken now refresh db = (.error "Not authenticated", db) := by
      unfold getValidToken
      rw [hdb]
    rw [heq] at h
    have h2 : "Not authenticated" = "" := (Except.error.injEq _ _).mp h
    exact absurd (congrArg String.length h2) (by decide)
  | some t =>
    by_cases hex : now < t.expiry - 60000
    · have heq : getValidToken now refresh db = (.ok t.access_token, db) := by
        unfold getValidToken
        rw [hdb]
        simp [hex]
      rw [heq] at h
      simp at h
    · cases refresh with
      | ok atok expIn =>
        have heq : (getValidToken now (.ok atok expIn) db).1 = .ok atok := by
          unfold getValidToken
          rw [hdb]
          simp [hex]
        rw [heq] at h
        simp at h
      | err msg =>
        have heq : getValidToken now (.err msg) db
            = (.error ("Token refresh failed: " ++ msg), db) := by
          unfold getValidToken
          rw [hdb]
          simp [hex]
        rw [heq] at h
        have h2 : "Token refresh failed: " ++ msg = "" := (Except.error.injEq _ _).mp h
        have h3 := congrArg String.length h2
        rw [String.length_append] at h3
        have h4 : ("Token refresh failed: " : String).length = 22 := by decide
        have h5 : ("" : String).length = 0 := by decide
        omega

/-- C1: if the call instant lies strictly before `expiry − 60s`, the stored
access token is returned and the document is untouched, whatever the
refresh endpoint would answer (the refresh path is never consulted); a
second call inside the window therefore returns the same token again. -/
theorem getValidToken_within_buffer (db : DB) (t : Tokens) (now now2 : Int)
    (refresh refresh2 : RefreshResult)
    (ht : db.tokens = some t)
    (h : now < t.expiry - 60000) (h2 : now2 < t.expiry - 60000) :
    getValidToken now refresh db = (.ok t.access_token, db)
    ∧ getValidToken now2 refresh2 (getValidToken now refresh db).2
        = (.ok t.access_token, (getValidToken now refresh db).2) := by
  have e1 : getValidToken now refresh db = (.ok t.access_token, db) := by
    unfold getValidToken
    rw [ht]
    simp [h]
  refine ⟨e1, ?_⟩
  rw [e1]
  unfold getValidToken
  rw [ht]
  simp [h2]

/-- Witness for `getValidToken_within_buffer` at a concrete document. -/
theorem getValidToken_within_buffer_witness :
    (({ videos := [], tokens := some ⟨"tokA", "tokR", 200000⟩, channel := none } : DB).tokens
        = some ⟨"tokA", "tokR", 200000⟩)
    ∧ ((0 : Int) < (200000 : Int) - 60000) ∧ ((1000 : Int) < (200000 : Int) - 60000)
    ∧ (getValidToken 0 (.err "boom")
          { videos := [], tokens := some ⟨"tokA", "tokR", 200000⟩, channel := none }
        = (.ok "tokA", { videos := [], tokens := some ⟨"tokA", "tokR", 200000⟩, channel := none })
      ∧ getValidToken 1000 (.err "zap")
          (getValidToken 0 (.err "boom")
            { videos := [], tokens := some ⟨"tokA", "tokR", 200000⟩, channel := none }).2
        = (.ok "tokA",
           (getValidToken 0 (.err "boom")
             { videos := [], tokens := some ⟨"tokA", "tokR", 200000⟩, channel := none }).2)) :=
  ⟨rfl, by decide, by decide,
   getValidToken_within_buffer
     { videos := [], tokens := some ⟨"tokA", "tokR", 200000⟩, channel := none }
     ⟨"tokA", "tokR", 200000⟩ 0 1000 (.err "boom") (.err "zap") rfl (by decide) (by decide)⟩

/-- C2, counterexample to the claim as stated: a refresh the provider
answers successfully with `expires_in = 30` is applied when the old token
had 60 seconds of life left, and the new expiry `0 + 30·1000 = 30000` is
strictly smaller than the old expiry `60000`. -/
theorem getValidToken_refresh_expiry_counterexample :
    getValidToken 0 (.ok "newTok" 30)
        { videos := [], tokens := some ⟨"oldTok", "r", 60000⟩, channel := none }
      = (.ok "newTok",
         { videos := [], tokens := some ⟨"newTok", "r", 30000⟩, channel := none })
    ∧ ¬ ((30000 : Int) > 60000) := by
  constructor
  · rfl
  · decide

/-- C2, amended: a successful refresh replaces `access_token` and `expiry`
together (`expiry := now + expires_in·1000`) and leaves `refresh_token`
unchanged; provided the provider grants more than the 60-second buffer
(`expires_in·1000 > 60000`), the new expiry is strictly greater than the
old one. -/
theorem getValidToken_refresh_updates (db : DB) (t : Tokens) (now : Int)
    (atok : String) (expIn : Int)
    (ht : db.tokens = some t) (hexp : ¬ now < t.expiry - 60000)
    (hgrant : 60000 < expIn * 1000) :
    getValidToken now (.ok atok expIn) db
      = (.ok atok,
         { db with tokens := some { access_token := atok,
                                    refresh_token := t.refresh_token,
                                    expiry := now + expIn * 1000 } })
    ∧ t.expiry < now + expIn * 1000 := by
  constructor
  · unfold getValidToken
    rw [ht]
    simp [hexp]
  · omega

/-- Witness for `getValidToken_refresh_updates` at a concrete document with
an expired token and a one-hour grant. -/
theorem getValidToken_refresh_updates_witness :
    (({ videos := [], tokens := some ⟨"oldTok", "r", 60000⟩, channel := none } : DB).tokens
        = some ⟨"oldTok", "r", 60000⟩)
    ∧ (¬ (100000 : Int) < (60000 : Int) - 60000) ∧ ((60000 : Int) < 3600 * 1000)
    ∧ (getValidToken 100000 (.ok "newTok" 3600)
          { videos := [], tokens := some ⟨"oldTok", "r", 60000⟩, channel := none }
        = (.ok "newTok",
           { videos := [],
             tokens := some { access_token := "newTok", refresh_token := "r",
                              expiry := 100000 + 3600 * 1000 },
             channel := none })
      ∧ (60000 : Int) < 100000 + 3600 * 1000) :=
  ⟨rfl, by decide, by decide,
   getValidToken_refresh_updates
     { videos := [], tokens := some ⟨"oldTok", "r", 60000⟩, channel := none }
     ⟨"oldTok", "r", 60000⟩ 100000 "newTok" 3600 rfl (by decide) (by decide)⟩

/-- C3: when the provider answers the refresh with an error payload, the
call fails with the `Token refresh failed:` message and the persisted
document is returned exactly as it was — the error path performs no write,
so `access_token`, `refresh_token` and `expiry` are all unchanged. -/
theorem getValidToken_refresh_error_preserves (db : DB) (t : Tokens) (now : Int)
    (e : String)
    (ht : db.tokens = some t) (hexp : ¬ now < t.expiry - 60000) :
    getValidToken now (.err e) db = (.error ("Token refresh failed: " ++ e), db) := by
  unfold getValidToken
  rw [ht]
  simp [hexp]

/-- Witness for `getValidToken_refresh_error_preserves` at a concrete
document with an expired token. -/
theorem getValidToken_refresh_error_preserves_witness :
    (({ videos := [], tokens := some ⟨"oldTok", "r", 60000⟩, channel := none } : DB).tokens
        = some ⟨"oldTok", "r", 60000⟩)
    ∧ (¬ (100000 : Int) < (60000 : Int) - 60000)
    ∧ getValidToken 100000 (.err "invalid_grant")
          { videos := [], tokens := some ⟨"oldTok", "r", 60000⟩, channel := none }
        = (.error ("Token refresh failed: " ++ "invalid_grant"),
           { videos := [], tokens := some ⟨"oldTok", "r", 60000⟩, channel := none }) :=
  ⟨rfl, by decide,
   getValidToken_refresh_error_preserves
     { videos := [], tokens := some ⟨"oldTok", "r", 60000⟩, channel := none }
     ⟨"oldTok", "r", 60000⟩ 100000 "invalid_grant" rfl (by decide)⟩

/-- `getValidToken` never touches the video list. -/
theorem getValidToken_videos (now : Int) (refresh : RefreshResult) (db : DB) :
    (getValidToken now refresh db).2.videos = db.videos := by
  unfold getValidToken
  cases db.tokens with
  | none => rfl
  | some t =>
    by_cases hex : now < t.expiry - 60000
    · simp [hex]
    · cases refresh with
      | ok atok expIn => simp [hex]
      | err msg => simp [hex]

/-- Replacing the first match keeps the list's length. -/
theorem replaceFirst_length (p : Video → Bool) (v' : Video) (l : List Video) :
    (replaceFirst p v' l).length = l.length := by
  induction l with
  | nil => rfl
  | cons w ws ih =>
    unfold replaceFirst
    by_cases hw : p w
    · simp [hw]
    · simp [hw, ih]

/-- After replacing the first match by a record that still matches, the
first match is the replacement. -/
theorem find?_replaceFirst (p : Video → Bool) (v v' : Video) (l : List Video)
    (hf : l.find? p = some v) (hp : p v' = true) :
    (replaceFirst p v' l).find? p = some v' := by
  induction l with
  | nil => simp [List.find?] at hf
  | cons w ws ih =>
    by_cases hw : p w
    · unfold replaceFirst
      rw [if_pos hw]
      exact List.find?_cons_of_pos _ hp
    · unfold replaceFirst
      rw [if_neg hw]
      rw [List.find?_cons_of_neg _ hw] at hf
      rw [List.find?_cons_of_neg _ hw]
      exact ih hf

/-- Replacing the first id-match by a record with the same id leaves the
stored id sequence unchanged. -/
theorem map_id_replaceFirst (videoId : String) (v' : Video) (l : List Video)
    (hid : v'.id = videoId) :
    (replaceFirst (fun w => w.id == videoId) v' l).map Video.id = l.map Video.id := by
  induction l with
  | nil => rfl
  | cons w ws ih =>
    unfold replaceFirst
    by_cases hw : (w.id == videoId) = true
    · rw [if_pos hw]
      have : w.id = videoId := by simpa using hw
      simp [hid, this]
    · rw [if_neg hw]
      simp [ih]

/-- Unfolding of `scheduleVideoPost` on the token-failure path. -/
theorem scheduleVideoPost_error_eq
    (db : DB) (nowMs : Int) (refresh : RefreshResult) (nowIso : String)
    (videoId : String) (v : Video) (e : String) (db1 : DB)
    (hv : db.videos.find? (fun w => w.id == videoId) = some v)
    (hgv : getValidToken nowMs refresh db = (.error e, db1)) :
    scheduleVideoPost nowMs refresh nowIso videoId db
      = (.error e,
         { db1 with videos := replaceFirst (fun w => w.id == videoId) ({ v with status := "error", error := some e }) db1.videos }) := by
  unfold scheduleVideoPost
  rw [hv, hgv]

/-- Unfolding of `scheduleVideoPost` on the token-success path. -/
theorem scheduleVideoPost_ok_eq
    (db : DB) (nowMs : Int) (refresh : RefreshResult) (nowIso : String)
    (videoId : String) (v : Video) (tok : String) (db1 : DB)
    (hv : db.videos.find? (fun w => w.id == videoId) = some v)
    (hgv : getValidToken nowMs refresh db = (.ok tok, db1)) :
    scheduleVideoPost nowMs refresh nowIso videoId db
      = (.ok { v with status := "scheduled", scheduledAt := some nowIso,
                      youtubeMetadata := some (mkYoutubeMetadata v) },
         { db1 with videos := replaceFirst (fun w => w.id == videoId) ({ v with status := "scheduled", scheduledAt := some nowIso, youtubeMetadata := some (mkYoutubeMetadata v) }) db1.videos }) := by
  unfold scheduleVideoPost
  rw [hv, hgv]

/-- On the token-success path the returned draft and the stored draft are
both the scheduled record, with `scheduledAt` and `youtubeMetadata`
freshly overwritten. -/
theorem schedule_ok_find
    (db : DB) (nowMs : Int) (refresh : RefreshResult) (nowIso : String)
    (videoId : String) (v : Video) (tok : String)
    (hv : db.videos.find? (fun w => w.id == videoId) = some v)
    (hok : (getValidToken nowMs refresh db).1 = .ok tok) :
    (scheduleVideoPost nowMs refresh nowIso videoId db).1
      = .ok ({ v with status := "scheduled", scheduledAt := some nowIso, youtubeMetadata := some (mkYoutubeMetadata v) })
    ∧ (scheduleVideoPost nowMs refresh nowIso videoId db).2.videos.find? (fun w => w.id == videoId)
      = some ({ v with status := "scheduled", scheduledAt := some nowIso, youtubeMetadata := some (mkYoutubeMetadata v) }) := by
  have hpv := List.find?_some hv
  rcases hgv : getValidToken nowMs refresh db with ⟨r, db1⟩
  have hr : r = .ok tok := by rw [hgv] at hok; exact hok
  subst hr
  have hdb1 : db1.videos = db.videos := by
    have h := getValidToken_videos nowMs refresh db
    rw [hgv] at h
    exact h
  rw [scheduleVideoPost_ok_eq db nowMs refresh nowIso videoId v tok db1 hv hgv]
  refine ⟨rfl, ?_⟩
  show (replaceFirst (fun w => w.id == videoId) _ db1.videos).find? (fun w => w.id == videoId) = _
  rw [hdb1]
  exact find?_replaceFirst (fun w => w.id == videoId) v
    ({ v with status := "scheduled", scheduledAt := some nowIso, youtubeMetadata := some (mkYoutubeMetadata v) })
    db.videos hv (by exact hpv)

/-- On the token-failure path the failure is re-raised and the stored
draft is the error-marked record. -/
theorem schedule_error_find
    (db : DB) (nowMs : Int) (refresh : RefreshResult) (nowIso : String)
    (videoId : String) (v : Video) (e : String)
    (hv : db.videos.find? (fun w => w.id == videoId) = some v)
    (hfail : (getValidToken nowMs refresh db).1 = .error e) :
    (scheduleVideoPost nowMs refresh nowIso videoId db).1 = .error e
    ∧ (scheduleVideoPost nowMs refresh nowIso videoId db).2.videos.find? (fun w => w.id == videoId)
      = some ({ v with status := "error", error := some e }) := by
  have hpv := List.find?_some hv
  rcases hgv : getValidToken nowMs refresh db with ⟨r, db1⟩
  have hr : r = .error e := by rw [hgv] at hfail; exact hfail
  subst hr
  have hdb1 : db1.videos = db.videos := by
    have h := getValidToken_videos nowMs refresh db
    rw [hgv] at h
    exact h
  rw [scheduleVideoPost_error_eq db nowMs refresh nowIso videoId v e db1 hv hgv]
  refine ⟨rfl, ?_⟩
  show (replaceFirst (fun w => w.id == videoId) _ db1.videos).find? (fun w => w.id == videoId) = _
  rw [hdb1]
  exact find?_replaceFirst (fun w => w.id == videoId) v
    ({ v with status := "error", error := some e }) db.videos hv (by exact hpv)

/-- C4: if token acquisition fails while scheduling a stored draft, the
draft is persisted with `status = error` and the failure's non-empty
message in `error`, and the failure is re-raised to the caller; a
subsequent `scheduleVideoPost` on the same id whose token acquisition
succeeds transitions the draft to `status = scheduled`. -/
theorem scheduleVideoPost_auth_failure_then_retry
    (db : DB) (nowMs : Int) (refresh : RefreshResult) (nowIso : String)
    (videoId : String) (v : Video) (e : String)
    (nowMs2 : Int) (refresh2 : RefreshResult) (nowIso2 : String) (tok2 : String)
    (hv : db.videos.find? (fun w => w.id == videoId) = some v)
    (hfail : (getValidToken nowMs refresh db).1 = .error e) :
    (scheduleVideoPost nowMs refresh nowIso videoId db).1 = .error e
    ∧ (scheduleVideoPost nowMs refresh nowIso videoId db).2.videos.find?
        (fun w => w.id == videoId)
        = some ({ v with status := "error", error := some e })
    ∧ e ≠ ""
    ∧ ((getValidToken nowMs2 refresh2
          (scheduleVideoPost nowMs refresh nowIso videoId db).2).1 = .ok tok2 →
        ((scheduleVideoPost nowMs2 refresh2 nowIso2 videoId
            (scheduleVideoPost nowMs refresh nowIso videoId db).2).2.videos.find?
          (fun w => w.id == videoId)).map Video.status = some "scheduled") := by
  obtain ⟨h1, h2⟩ := schedule_error_find db nowMs refresh nowIso videoId v e hv hfail
  refine ⟨h1, h2, getValidToken_error_nonempty nowMs refresh db e hfail, ?_⟩
  intro hok2
  obtain ⟨-, h4⟩ := schedule_ok_find (scheduleVideoPost nowMs refresh nowIso videoId db).2
    nowMs2 refresh2 nowIso2 videoId ({ v with status := "error", error := some e }) tok2 h2 hok2
  rw [h4]
  rfl

/-- Fixture: a stored draft, used by concrete witnesses. -/
def sampleDraft : Video :=
  { id := "42", topic := "cooking", tone := "Engaging", length := 60,
    title := "T", hook := "H", script := "S", hashtags := "#cooking #shorts #fyp",
    status := "draft", createdAt := "2026-01-01T00:00:00Z", scheduledFor := none,
    emoji := "🔥", scheduledAt := none, error := none, youtubeMetadata := none }

/-- Fixture: the same draft already in the `scheduled` state. -/
def sampleScheduled : Video :=
  { sampleDraft with status := "scheduled", scheduledAt := some "2026-01-02T00:00:00Z" }

/-- Fixture: a token record with a far-away expiry. -/
def freshTokens : Tokens := ⟨"accA", "refR", 1000000000⟩

/-- Fixture: a token record that already expired. -/
def staleTokens : Tokens := ⟨"accOld", "refR", 0⟩

/-- Fixture: a document with the given drafts and token record. -/
def dbWith (vs : List Video) (tk : Option Tokens) : DB :=
  { videos := vs, tokens := tk, channel := none }

/-- Witness for `scheduleVideoPost_auth_failure_then_retry`: the draft's
token acquisition fails on a rejected refresh, the draft is marked
`error`, and a retry whose refresh succeeds stores it as `scheduled`. -/
theorem scheduleVideoPost_auth_failure_then_retry_witness :
    ((dbWith [sampleDraft] (some staleTokens)).videos.find? (fun w => w.id == "42")
        = some sampleDraft)
    ∧ ((getValidToken 100000 (.err "invalid_grant") (dbWith [sampleDraft] (some staleTokens))).1
        = .error ("Token refresh failed: " ++ "invalid_grant"))
    ∧ ((scheduleVideoPost 100000 (.err "invalid_grant") "iso1" "42"
          (dbWith [sampleDraft] (some staleTokens))).1
        = .error ("Token refresh failed: " ++ "invalid_grant"))
    ∧ (((scheduleVideoPost 100000 (.ok "accB" 3600) "iso2" "42"
          (scheduleVideoPost 100000 (.err "invalid_grant") "iso1" "42"
            (dbWith [sampleDraft] (some staleTokens))).2).2.videos.find?
          (fun w => w.id == "42")).map Video.status = some "scheduled") := by
  refine ⟨rfl, rfl, ?_, ?_⟩
  · exact (scheduleVideoPost_auth_failure_then_retry
      (dbWith [sampleDraft] (some staleTokens)) 100000 (.err "invalid_grant") "iso1" "42"
      sampleDraft ("Token refresh failed: " ++ "invalid_grant")
      100000 (.ok "accB" 3600) "iso2" "accB" rfl rfl).1
  · exact (scheduleVideoPost_auth_failure_then_retry
      (dbWith [sampleDraft] (some staleTokens)) 100000 (.err "invalid_grant") "iso1" "42"
      sampleDraft ("Token refresh failed: " ++ "invalid_grant")
      100000 (.ok "accB" 3600) "iso2" "accB" rfl rfl).2.2.2 rfl

/-- C5: for every draft scheduled successfully, `publishMetadata` is
synthesized deterministically from the draft's fields: the description is
`script`, a blank line, `hashtags`, a blank line and the `#Shorts` marker;
the tags are the hashtags split on `#`, whitespace-only tokens dropped and
the rest trimmed; category and visibility are the fixed defaults `22` and
`public`.  Concretely, `"#cooking #shorts #fyp"` yields
`["cooking", "shorts", "fyp"]`. -/
theorem scheduleVideoPost_publishMetadata
    (db : DB) (nowMs : Int) (refresh : RefreshResult) (nowIso : String)
    (videoId : String) (v : Video) (tok : String)
    (hv : db.videos.find? (fun w => w.id == videoId) = some v)
    (hok : (getValidToken nowMs refresh db).1 = .ok tok) :
    ((scheduleVideoPost nowMs refresh nowIso videoId db).2.videos.find?
        (fun w => w.id == videoId)).map Video.youtubeMetadata
      = some (some
          { title := v.title
            description := v.script ++ "\n\n" ++ v.hashtags ++ "\n\n#Shorts"
            tags := ((jsSplitChar '#' v.hashtags).filter (fun t => jsTrim t != "")).map jsTrim
            categoryId := "22"
            privacyStatus := "public" })
    ∧ hashtagsToTags "#cooking #shorts #fyp" = ["cooking", "shorts", "fyp"] := by
  obtain ⟨-, h2⟩ := schedule_ok_find db nowMs refresh nowIso videoId v tok hv hok
  refine ⟨?_, by decide⟩
  rw [h2]
  rfl

/-- Witness for `scheduleVideoPost_publishMetadata` on the sample draft
with a valid token. -/
theorem scheduleVideoPost_publishMetadata_witness :
    ((dbWith [sampleDraft] (some freshTokens)).videos.find? (fun w => w.id == "42")
        = some sampleDraft)
    ∧ ((getValidToken 0 (.err "unused") (dbWith [sampleDraft] (some freshTokens))).1
        = .ok "accA")
    ∧ ((scheduleVideoPost 0 (.err "unused") "iso" "42"
          (dbWith [sampleDraft] (some freshTokens))).2.videos.find?
          (fun w => w.id == "42")).map Video.youtubeMetadata
        = some (some
            { title := sampleDraft.title
              description := sampleDraft.script ++ "\n\n" ++ sampleDraft.hashtags ++ "\n\n#Shorts"
              tags := ((jsSplitChar '#' sampleDraft.hashtags).filter (fun t => jsTrim t != "")).map jsTrim
              categoryId := "22"
              privacyStatus := "public" })
    ∧ hashtagsToTags "#cooking #shorts #fyp" = ["cooking", "shorts", "fyp"] := by
  refine ⟨rfl, rfl, ?_, ?_⟩
  · exact (scheduleVideoPost_publishMetadata (dbWith [sampleDraft] (some freshTokens))
      0 (.err "unused") "iso" "42" sampleDraft "accA" rfl rfl).1
  · exact (scheduleVideoPost_publishMetadata (dbWith [sampleDraft] (some freshTokens))
      0 (.err "unused") "iso" "42" sampleDraft "accA" rfl rfl).2

/-- C10: `scheduleVideoPost` reads the draft's current `status` nowhere:
for every stored draft — whether its status is `draft`, `scheduled` or
`error` — a call whose token acquisition succeeds stores it with
`status = scheduled` and freshly overwritten `scheduledAt` and
`youtubeMetadata`, and a call whose token acquisition fails stores it with
`status = error`; `scheduled` is not terminal at the code level. -/
theorem scheduleVideoPost_no_status_guard
    (db : DB) (nowMs : Int) (refresh : RefreshResult) (nowIso : String)
    (videoId : String) (v : Video) (tok : String) (e : String)
    (hv : db.videos.find? (fun w => w.id == videoId) = some v) :
    ((getValidToken nowMs refresh db).1 = .ok tok →
       (scheduleVideoPost nowMs refresh nowIso videoId db).2.videos.find?
           (fun w => w.id == videoId)
         = some ({ v with status := "scheduled", scheduledAt := some nowIso, youtubeMetadata := some (mkYoutubeMetadata v) }))
    ∧ ((getValidToken nowMs refresh db).1 = .error e →
       ((scheduleVideoPost nowMs refresh nowIso videoId db).2.videos.find?
           (fun w => w.id == videoId)).map Video.status
         = some "error") := by
  constructor
  · intro hok
    exact (schedule_ok_find db nowMs refresh nowIso videoId v tok hv hok).2
  · intro hfail
    rw [(schedule_error_find db nowMs refresh nowIso videoId v e hv hfail).2]
    rfl

/-- Witness for `scheduleVideoPost_no_status_guard` on a draft that is
already `scheduled`: with a valid token its `scheduledAt` and metadata are
overwritten afresh, and with no token record it is demoted to `error`. -/
theorem scheduleVideoPost_no_status_guard_witness :
    ((dbWith [sampleScheduled] (some freshTokens)).videos.find? (fun w => w.id == "42")
        = some sampleScheduled)
    ∧ ((dbWith [sampleScheduled] none).videos.find? (fun w => w.id == "42")
        = some sampleScheduled)
    ∧ ((scheduleVideoPost 0 (.err "unused") "isoNew" "42"
          (dbWith [sampleScheduled] (some freshTokens))).2.videos.find?
          (fun w => w.id == "42")
        = some ({ sampleScheduled with status := "scheduled", scheduledAt := some "isoNew", youtubeMetadata := some (mkYoutubeMetadata sampleScheduled) }))
    ∧ (((scheduleVideoPost 0 (.err "unused") "isoNew" "42"
          (dbWith [sampleScheduled] none)).2.videos.find?
          (fun w => w.id == "42")).map Video.status = some "error") := by
  refine ⟨rfl, rfl, ?_, ?_⟩
  · exact (scheduleVideoPost_no_status_guard (dbWith [sampleScheduled] (some freshTokens))
      0 (.err "unused") "isoNew" "42" sampleScheduled "accA" "Not authenticated" rfl).1 rfl
  · exact (scheduleVideoPost_no_status_guard (dbWith [sampleScheduled] none)
      0 (.err "unused") "isoNew" "42" sampleScheduled "accA" "Not authenticated" rfl).2 rfl

/-- Inserting through the `/api/generate` route never leaves more than 50
entries, whatever the incoming length. -/
theorem insertVideo_length_le (v : Video) (l : List Video) :
    (insertVideo v l).length ≤ 50 := by
  unfold insertVideo
  by_cases h : (v :: l).length > 50
  · rw [if_pos h, List.length_take]
    omega
  · rw [if_neg h]
    omega

/-- `scheduleVideoPost` never changes the number of stored drafts. -/
theorem scheduleVideoPost_videos_length (nowMs : Int) (refresh : RefreshResult)
    (nowIso videoId : String) (db : DB) :
    (scheduleVideoPost nowMs refresh nowIso videoId db).2.videos.length
      = db.videos.length := by
  have hdb1 := getValidToken_videos nowMs refresh db
  unfold scheduleVideoPost
  cases hf : db.videos.find? (fun v => v.id == videoId) with
  | none => rfl
  | some v =>
    rcases hgv : getValidToken nowMs refresh db with ⟨r, db1⟩
    rw [hgv] at hdb1
    cases r with
    | ok tok =>
      simp at hdb1
      simp [replaceFirst_length, hdb1]
    | error e =>
      simp at hdb1
      simp [replaceFirst_length, hdb1]

/-- Each route keeps the draft store within the 50-entry bound. -/
theorem applyOp_length_le (db : DB) (op : Op) (h : db.videos.length ≤ 50) :
    (applyOp db op).videos.length ≤ 50 := by
  cases op with
  | generate nowMs nowIso topic tone length generated scheduleFor emojiIdx =>
    exact insertVideo_length_le _ _
  | delete videoId =>
    exact le_trans (db.videos.length_filter_le _) h
  | schedule nowMs refresh nowIso videoId =>
    rw [show (applyOp db (.schedule nowMs refresh nowIso videoId)).videos
          = (scheduleVideoPost nowMs refresh nowIso videoId db).2.videos from rfl,
        scheduleVideoPost_videos_length]
    exact h
  | disconnect => exact h
  | authCallback tokens channel => exact h

/-- The bound holds along any request history started from the fresh
document. -/
theorem foldl_applyOp_length_le (ops : List Op) (db : DB)
    (h : db.videos.length ≤ 50) :
    (ops.foldl applyOp db).videos.length ≤ 50 := by
  induction ops generalizing db with
  | nil => simpa using h
  | cons op rest ih => exact ih _ (applyOp_length_le db op h)

/-- Taking `n` of a cons with positive `n` keeps the head. -/
theorem take_cons_of_pos (n : Nat) (a : Video) (l : List Video) (h : 0 < n) :
    (a :: l).take n = a :: l.take (n - 1) := by
  cases n with
  | zero => omega
  | succ m => simp [List.take_succ_cons]

/-- C6: the draft store never holds more than 50 entries along any request
history; the insert prepends the new draft (position 0, newest first), and
inserting into a full store of 50 evicts exactly the oldest (last) entry. -/
theorem draftStore_bounded (ops : List Op) (v : Video) (videos : List Video)
    (h50 : videos.length = 50) :
    (applyOps ops).videos.length ≤ 50
    ∧ insertVideo v videos = v :: videos.dropLast
    ∧ (∀ l : List Video, l.length < 50 → insertVideo v l = v :: l) := by
  refine ⟨foldl_applyOp_length_le ops initialDB (by simp [initialDB]), ?_, ?_⟩
  · unfold insertVideo
    have hgt : (v :: videos).length > 50 := by simp [h50]
    rw [if_pos hgt, take_cons_of_pos 50 v videos (by omega), List.dropLast_eq_take, h50]
  · intro l hl
    unfold insertVideo
    have : ¬ (v :: l).length > 50 := by simp; omega
    rw [if_neg this]

/-- Witness for `draftStore_bounded` on a full store of 50 drafts. -/
theorem draftStore_bounded_witness :
    ((List.replicate 50 sampleDraft).length = 50)
    ∧ ((applyOps []).videos.length ≤ 50
       ∧ insertVideo sampleScheduled (List.replicate 50 sampleDraft)
           = sampleScheduled :: (List.replicate 50 sampleDraft).dropLast
       ∧ (∀ l : List Video, l.length < 50 →
            insertVideo sampleScheduled l = sampleScheduled :: l)) :=
  ⟨by simp, draftStore_bounded [] sampleScheduled (List.replicate 50 sampleDraft) (by simp)⟩

/-- C7: script generation is total and never propagates an upstream
failure: `generateScript` returns a `Script` on every input, and on a
transport rejection, an unparseable response or a response missing the
content field — and likewise when no API key is configured — it returns
exactly the local deterministic generator's result. -/
theorem generateScript_never_fails
    (key : Option String) (msg : String) (ext : ExtCall)
    (topic tone : String) (length : Int) (hookIdx : Fin 5) (titleIdx : Fin 4) :
    generateScript key (.reject msg) topic tone length hookIdx titleIdx
      = localGenerate topic tone length hookIdx titleIdx
    ∧ generateScript key (.resolved none) topic tone length hookIdx titleIdx
      = localGenerate topic tone length hookIdx titleIdx
    ∧ generateScript none ext topic tone length hookIdx titleIdx
      = localGenerate topic tone length hookIdx titleIdx := by
  refine ⟨?_, ?_, rfl⟩ <;> cases key <;> rfl

/-- C8: the four fields of the generated-response parse are extracted
independently, each by its own marker match: when the title extraction
fails, the title alone falls back to the raw topic while hook, script and
hashtags keep the values of their own extractions (their own defaults when
those fail too) — no full fallback; and none of hook, script or hashtags
depends on the topic at all. -/
theorem parseGeneratedScript_per_field (text topic topic2 : String)
    (hTitle : extractLineField "TITLE:".data text.data = none) :
    (parseGeneratedScript text topic).title = topic
    ∧ (parseGeneratedScript text topic).hook
        = orElseField (extractLineField "HOOK:".data text.data) ""
    ∧ (parseGeneratedScript text topic).script
        = orElseField (extractBlockField "SCRIPT:".data "HASHTAGS:".data text.data) text
    ∧ (parseGeneratedScript text topic).hashtags
        = orElseField (extractLineField "HASHTAGS:".data text.data) "#shorts #viral #trending"
    ∧ (parseGeneratedScript text topic).hook = (parseGeneratedScript text topic2).hook
    ∧ (parseGeneratedScript text topic).script = (parseGeneratedScript text topic2).script
    ∧ (parseGeneratedScript text topic).hashtags
        = (parseGeneratedScript text topic2).hashtags := by
  refine ⟨?_, rfl, rfl, rfl, rfl, rfl, rfl⟩
  show orElseField (extractLineField "TITLE:".data text.data) topic = topic
  rw [hTitle]
  rfl

/-- Witness for `parseGeneratedScript_per_field` on a response that has
hook, script and hashtags lines but no title line. -/
theorem parseGeneratedScript_per_field_witness :
    (extractLineField "TITLE:".data ("HOOK: h!\nSCRIPT: body\nHASHTAGS: #x" : String).data
        = none)
    ∧ ((parseGeneratedScript "HOOK: h!\nSCRIPT: body\nHASHTAGS: #x" "cooking").title = "cooking"
       ∧ (parseGeneratedScript "HOOK: h!\nSCRIPT: body\nHASHTAGS: #x" "cooking").hook
           = orElseField (extractLineField "HOOK:".data
               ("HOOK: h!\nSCRIPT: body\nHASHTAGS: #x" : String).data) ""
       ∧ (parseGeneratedScript "HOOK: h!\nSCRIPT: body\nHASHTAGS: #x" "cooking").script
           = orElseField (extractBlockField "SCRIPT:".data "HASHTAGS:".data
               ("HOOK: h!\nSCRIPT: body\nHASHTAGS: #x" : String).data)
               "HOOK: h!\nSCRIPT: body\nHASHTAGS: #x"
       ∧ (parseGeneratedScript "HOOK: h!\nSCRIPT: body\nHASHTAGS: #x" "cooking").hashtags
           = orElseField (extractLineField "HASHTAGS:".data
               ("HOOK: h!\nSCRIPT: body\nHASHTAGS: #x" : String).data) "#shorts #viral #trending"
       ∧ (parseGeneratedScript "HOOK: h!\nSCRIPT: body\nHASHTAGS: #x" "cooking").hook
           = (parseGeneratedScript "HOOK: h!\nSCRIPT: body\nHASHTAGS: #x" "baking").hook
       ∧ (parseGeneratedScript "HOOK: h!\nSCRIPT: body\nHASHTAGS: #x" "cooking").script
           = (parseGeneratedScript "HOOK: h!\nSCRIPT: body\nHASHTAGS: #x" "baking").script
       ∧ (parseGeneratedScript "HOOK: h!\nSCRIPT: body\nHASHTAGS: #x" "cooking").hashtags
           = (parseGeneratedScript "HOOK: h!\nSCRIPT: body\nHASHTAGS: #x" "baking").hashtags) :=
  ⟨by decide,
   parseGeneratedScript_per_field "HOOK: h!\nSCRIPT: body\nHASHTAGS: #x" "cooking" "baking"
     (by decide)⟩

/-- C9, counterexample to the claim as stated: two drafts generated in the
same millisecond (`Date.now() = 1000`) both receive the id `"1000"`; the
store then holds two distinct drafts with equal ids. -/
theorem draftStore_id_collision :
    ((applyOps
        [.generate 1000 "isoA" "topicA" "Engaging" 60 ⟨"tA", "hA", "sA", "#a"⟩ none 0,
         .generate 1000 "isoB" "topicB" "Engaging" 60 ⟨"tB", "hB", "sB", "#b"⟩ none 0]).videos.map
        Video.id = ["1000", "1000"])
    ∧ ((applyOps
        [.generate 1000 "isoA" "topicA" "Engaging" 60 ⟨"tA", "hA", "sA", "#a"⟩ none 0,
         .generate 1000 "isoB" "topicB" "Engaging" 60 ⟨"tB", "hB", "sB", "#b"⟩ none 0]).videos.map
        Video.topic = ["topicB", "topicA"])
    ∧ ¬ ((applyOps
        [.generate 1000 "isoA" "topicA" "Engaging" 60 ⟨"tA", "hA", "sA", "#a"⟩ none 0,
         .generate 1000 "isoB" "topicB" "Engaging" 60 ⟨"tB", "hB", "sB", "#b"⟩ none 0]).videos.map
        Video.id).Nodup := by
  refine ⟨by decide, by decide, by decide⟩

/-- The insert route preserves uniqueness of stored ids when the new id is
fresh. -/
theorem insertVideo_ids_nodup (v : Video) (l : List Video)
    (hnodup : (l.map Video.id).Nodup) (hfresh : v.id ∉ l.map Video.id) :
    ((insertVideo v l).map Video.id).Nodup := by
  have hcons : ((v :: l).map Video.id).Nodup := by
    simp only [List.map_cons, List.nodup_cons]
    exact ⟨by simpa using hfresh, hnodup⟩
  unfold insertVideo
  by_cases h : (v :: l).length > 50
  · rw [if_pos h, List.map_take]
    exact hcons.sublist (List.take_sublist _ _)
  · rw [if_neg h]
    exact hcons

/-- C9, amended: the id assigned at creation is `Date.now().toString()`,
so ids stay unique within the store provided each creation's millisecond
timestamp differs from the ids already stored (two creations in the same
millisecond collide, see the counterexample); deletion and scheduling
never break uniqueness of the stored ids. -/
theorem draftStore_ids_unique
    (db : DB) (nowMs : Nat) (nowIso topic tone : String) (length : Int)
    (generated : Script) (scheduleFor : Option String) (emojiIdx : Fin 10)
    (videoId : String) (nowMs2 : Int) (refresh : RefreshResult) (nowIso2 : String)
    (hnodup : (db.videos.map Video.id).Nodup) :
    (toString nowMs ∉ db.videos.map Video.id →
      ((applyOp db
          (.generate nowMs nowIso topic tone length generated scheduleFor emojiIdx)).videos.map
        Video.id).Nodup)
    ∧ ((applyOp db (.delete videoId)).videos.map Video.id).Nodup
    ∧ ((applyOp db (.schedule nowMs2 refresh nowIso2 videoId)).videos.map Video.id).Nodup := by
  refine ⟨?_, ?_, ?_⟩
  · intro hfresh
    exact insertVideo_ids_nodup _ db.videos hnodup hfresh
  · exact hnodup.sublist ((db.videos.filter_sublist).map Video.id)
  · show ((scheduleVideoPost nowMs2 refresh nowIso2 videoId db).2.videos.map Video.id).Nodup
    unfold scheduleVideoPost
    cases hf : db.videos.find? (fun v => v.id == videoId) with
    | none => exact hnodup
    | some v =>
      have hpv := List.find?_some hf
      have hid : v.id = videoId := by simpa using hpv
      rcases hgv : getValidToken nowMs2 refresh db with ⟨r, db1⟩
      have hdb1 := getValidToken_videos nowMs2 refresh db
      rw [hgv] at hdb1
      simp at hdb1
      cases r with
      | ok tok =>
        show ((replaceFirst (fun w => w.id == videoId) _ db1.videos).map Video.id).Nodup
        rw [map_id_replaceFirst videoId _ db1.videos (by simpa using hid), hdb1]
        exact hnodup
      | error e =>
        show ((replaceFirst (fun w => w.id == videoId) _ db1.videos).map Video.id).Nodup
        rw [map_id_replaceFirst videoId _ db1.videos (by simpa using hid), hdb1]
        exact hnodup

/-- Witness for `draftStore_ids_unique` on a store holding the sample
draft (id `"42"`) and a fresh creation instant `7`. -/
theorem draftStore_ids_unique_witness :
    (((dbWith [sampleDraft] none).videos.map Video.id).Nodup)
    ∧ ((toString 7 ∉ (dbWith [sampleDraft] none).videos.map Video.id →
          ((applyOp (dbWith [sampleDraft] none)
              (.generate 7 "iso" "t" "Engaging" 60 ⟨"a", "b", "c", "d"⟩ none 0)).videos.map
            Video.id).Nodup)
       ∧ ((applyOp (dbWith [sampleDraft] none) (.delete "42")).videos.map Video.id).Nodup
       ∧ ((applyOp (dbWith [sampleDraft] none)
            (.schedule 0 (.err "x") "iso2" "42")).videos.map Video.id).Nodup) :=
  ⟨by decide,
   draftStore_ids_unique (dbWith [sampleDraft] none) 7 "iso" "t" "Engaging" 60
     ⟨"a", "b", "c", "d"⟩ none 0 "42" 0 (.err "x") "iso2" (by decide)⟩

end ShortsBot
